import Mathlib

/-!
Verification of the Deal Economics & Multi-Channel GTM Aggregation Engine of
the sales-compensation dashboard (`dashboards/production/dashboard_fast.py`,
with the parallel cost-point reconciliation in
`dashboards/production/dashboard_improved_final.py`).

Money amounts and conversion rates are modelled as exact rationals (`ℚ`);
the source computes with Python floats, so exact identities proved here are
the source's identities in exact arithmetic.  All embedded functions are
total, matching the source, which never raises on numeric input.
-/

namespace SalesComp

/-- Commission policy selector: session key `commission_policy`, whose values
are the strings `'upfront'` and `'full'`. -/
inductive CommissionPolicy where
  | upfront
  | full
deriving DecidableEq

/-- Modelled from the spec: the module `deal_economics_manager` (class
`DealEconomicsManager`, whose `get_current_deal_economics` is called at
`dashboard_fast.py:272`) is imported but absent from the source tree.  Per
spec §3, DealEconomics carries the canonical deal value, the upfront
percentage and the commission policy; the cash fields are derived below per
spec §4.2. -/
structure DealEconomics where
  avg_deal_value : ℚ
  upfront_pct : ℚ
  commission_policy : CommissionPolicy

/-- Modelled from the spec: `get_current_deal_economics()['upfront_cash']`
(module `deal_economics_manager`, absent from the tree) — spec §4.2:
`upfront_cash = total_deal_value × upfront_pct/100`. -/
def DealEconomics.upfront_cash (d : DealEconomics) : ℚ :=
  d.avg_deal_value * (d.upfront_pct / 100)

/-- Spec-side definition (spec §3, §4.3): the per-deal commission base
selected by `commission_policy` — `upfront_cash` under UPFRONT,
`total_deal_value` under FULL.  Declared only to compare the engine's
revenue against the spec's contract; the funnel code itself never branches
on the policy. -/
def DealEconomics.commission_base (d : DealEconomics) : ℚ :=
  match d.commission_policy with
  | .upfront => d.upfront_cash
  | .full => d.avg_deal_value

/-- One entry of the session list `gtm_channels`: a JSON dict whose keys may
be absent.  `none` models a missing key; `calculate_gtm_metrics_cached`
reads every key with `ch.get(key, default)`
(`dashboard_fast.py:255`-`264`). -/
structure Channel where
  enabled : Option Bool
  monthly_leads : Option ℚ
  cpl : Option ℚ
  contact_rate : Option ℚ
  meeting_rate : Option ℚ
  show_up_rate : Option ℚ
  close_rate : Option ℚ

/-- `ch.get('monthly_leads', 0)` (`dashboard_fast.py:259`). -/
def Channel.leadsD (ch : Channel) : ℚ := ch.monthly_leads.getD 0

/-- `ch.get('cpl', 50)` (`dashboard_fast.py:260`). -/
def Channel.cplD (ch : Channel) : ℚ := ch.cpl.getD 50

/-- `ch.get('contact_rate', 0.6)` (`dashboard_fast.py:261`). -/
def Channel.contactRateD (ch : Channel) : ℚ := ch.contact_rate.getD (6/10)

/-- `ch.get('meeting_rate', 0.3)` (`dashboard_fast.py:262`). -/
def Channel.meetingRateD (ch : Channel) : ℚ := ch.meeting_rate.getD (3/10)

/-- `ch.get('show_up_rate', 0.7)` (`dashboard_fast.py:263`). -/
def Channel.showUpRateD (ch : Channel) : ℚ := ch.show_up_rate.getD (7/10)

/-- `ch.get('close_rate', 0.25)` (`dashboard_fast.py:264`). -/
def Channel.closeRateD (ch : Channel) : ℚ := ch.close_rate.getD (1/4)

/-- Stage volumes, spend and revenue of one channel: the loop body of
`calculate_gtm_metrics_cached` (`dashboard_fast.py:259`-`274`).  The same
five formulas are re-derived inline for the per-channel preview at
`dashboard_fast.py:830`-`835`. -/
structure ChannelFunnel where
  leads : ℚ
  contacts : ℚ
  meetings_sched : ℚ
  meetings_held : ℚ
  sales : ℚ
  spend : ℚ
  revenue : ℚ

/-- The per-channel funnel computation.  Note `revenue = sales *
deal_econ['upfront_cash']` (`dashboard_fast.py:273`, and again at line 835):
the revenue basis is always the upfront cash, with no branch on
`commission_policy`. -/
def channelFunnel (deal_econ : DealEconomics) (ch : Channel) : ChannelFunnel :=
  let leads := ch.leadsD
  let contacts := leads * ch.contactRateD
  let meetings_sched := contacts * ch.meetingRateD
  let meetings_held := meetings_sched * ch.showUpRateD
  let sales := meetings_held * ch.closeRateD
  { leads := leads
    contacts := contacts
    meetings_sched := meetings_sched
    meetings_held := meetings_held
    sales := sales
    spend := leads * ch.cplD
    revenue := sales * deal_econ.upfront_cash }

/-- The channels the aggregation loop keeps: `if not ch.get('enabled', True):
continue` (`dashboard_fast.py:256`) — a channel is skipped only when its
`enabled` key is present and `False`. -/
def enabledChannels (channels : List Channel) : List Channel :=
  channels.filter (fun ch => ch.enabled.getD true)

/-- The dict returned by `calculate_gtm_metrics_cached`
(`dashboard_fast.py:301`-`312`).  The per-channel `channels_breakdown` list
(UI table data) is not modelled; the claims concern the totals and blended
rates.  In the empty-channel early return (`dashboard_fast.py:233`-`243`)
the source dict omits the spend and cost-per-sale keys; they are taken as 0
here. -/
structure GTMMetrics where
  monthly_leads : ℚ
  monthly_contacts : ℚ
  monthly_meetings_scheduled : ℚ
  monthly_meetings_held : ℚ
  monthly_sales : ℚ
  monthly_revenue_immediate : ℚ
  total_marketing_spend : ℚ
  cost_per_sale : ℚ
  blended_close_rate : ℚ

/-- The aggregation of `calculate_gtm_metrics_cached`
(`dashboard_fast.py:224`-`312`): zero totals for an empty channel list,
otherwise pure summation over the enabled channels' funnels, with the
blended rates formed from the summed volumes under a positivity guard
(lines 298-299).  `deal_econ` is the ambient
`DealEconomicsManager.get_current_deal_economics()` read inside the cached
body (line 272) — it is not part of the function's cache key
(`channels_json` is the only argument). -/
def calculate_gtm_metrics (deal_econ : DealEconomics) (channels : List Channel) :
    GTMMetrics :=
  if channels.isEmpty then
    { monthly_leads := 0
      monthly_contacts := 0
      monthly_meetings_scheduled := 0
      monthly_meetings_held := 0
      monthly_sales := 0
      monthly_revenue_immediate := 0
      total_marketing_spend := 0
      cost_per_sale := 0
      blended_close_rate := 0 }
  else
    let funnels := (enabledChannels channels).map (channelFunnel deal_econ)
    let total_leads := (funnels.map ChannelFunnel.leads).sum
    let total_contacts := (funnels.map ChannelFunnel.contacts).sum
    let total_meetings_sched := (funnels.map ChannelFunnel.meetings_sched).sum
    let total_meetings_held := (funnels.map ChannelFunnel.meetings_held).sum
    let total_sales := (funnels.map ChannelFunnel.sales).sum
    let total_revenue := (funnels.map ChannelFunnel.revenue).sum
    let total_spend := (funnels.map ChannelFunnel.spend).sum
    { monthly_leads := total_leads
      monthly_contacts := total_contacts
      monthly_meetings_scheduled := total_meetings_sched
      monthly_meetings_held := total_meetings_held
      monthly_sales := total_sales
      monthly_revenue_immediate := total_revenue
      total_marketing_spend := total_spend
      cost_per_sale := if total_sales > 0 then total_spend / total_sales else 0
      blended_close_rate :=
        if total_meetings_held > 0 then total_sales / total_meetings_held else 0 }

/-- The dict returned by `calculate_deal_cash_splits`
(`dashboard_fast.py:324`-`335`). -/
structure CashSplits where
  upfront_cash : ℚ
  deferred_cash : ℚ
  upfront_pct : ℚ
  deferred_pct : ℚ

/-- `calculate_deal_cash_splits` (`dashboard_fast.py:323`-`335`): the
upfront/deferred cash split formulas, applied to the arguments as given —
the body contains no input validation, no clamping and no error path. -/
def calculate_deal_cash_splits (deal_value upfront_pct : ℚ) : CashSplits :=
  { upfront_cash := deal_value * (upfront_pct / 100)
    deferred_cash := deal_value * ((100 - upfront_pct) / 100)
    upfront_pct := upfront_pct
    deferred_pct := 100 - upfront_pct }

/-- The dict returned by `calculate_unit_economics_cached`
(`dashboard_fast.py:348`-`354`); the source spreads the cash-splits dict into
the result (`**cash_splits`), modelled as the `splits` field. -/
structure UnitEconomics where
  ltv : ℚ
  cac : ℚ
  ltv_cac : ℚ
  payback_months : ℚ
  splits : CashSplits

/-- `calculate_unit_economics_cached` (`dashboard_fast.py:337`-`354`):
LTV from the cash split and retention, with guarded ratio computations —
`ltv_cac` falls back to 0 unless `cost_per_sale > 0`, `payback_months`
falls back to the sentinel 999 unless `upfront_cash > 0`. -/
def calculate_unit_economics (deal_value upfront_pct grr cost_per_sale : ℚ) :
    UnitEconomics :=
  let cash_splits := calculate_deal_cash_splits deal_value upfront_pct
  let upfront_cash := cash_splits.upfront_cash
  let deferred_cash := cash_splits.deferred_cash
  let ltv := upfront_cash + deferred_cash * grr
  { ltv := ltv
    cac := cost_per_sale
    ltv_cac := if cost_per_sale > 0 then ltv / cost_per_sale else 0
    payback_months :=
      if upfront_cash > 0 then cost_per_sale / (upfront_cash / 12) else 999
    splits := cash_splits }

/-- The channel cost-input selector `cost_point`
(`dashboard_fast.py:798`-`820`): the UI radio options "Cost per Lead" needs
no reconciliation; the other four options are modelled. -/
inductive CostPoint where
  | costPerContact
  | costPerMeeting
  | costPerSale
  | totalBudget
deriving DecidableEq

/-- The `(leads, cpl)` pair stored back into the channel config
(`dashboard_fast.py:822`-`824`, before the int truncation). -/
structure CostReconcileResult where
  leads : ℚ
  cpl : ℚ

/-- The cost-point reconciliation (`dashboard_fast.py:797`-`820`; the
identical branch ladder appears in
`dashboard_improved_final.py:1289`-`1311`): back-solve the lead volume and
the effective cost-per-lead from a downstream cost figure by dividing by the
cumulative conversion rate to that stage.  Every branch guards its division
with a strict positivity test on the conversion product; in the guarded
case the per-contact, per-meeting and per-sale branches fall back to the
unscaled downstream cost (and a rough lead multiplier), while the
total-budget branch falls back to a cpl of 0. -/
def reconcileCostPoint (cost_point : CostPoint)
    (contact_rate meeting_rate show_up_rate close_rate : ℚ)
    (contacts_target meetings_target sales_target leads_input : ℚ)
    (cost_per_contact cost_per_meeting cost_per_sale total_budget : ℚ) :
    CostReconcileResult :=
  match cost_point with
  | .costPerContact =>
    { leads := if contact_rate > 0 then contacts_target / contact_rate
               else contacts_target
      cpl := if contact_rate > 0 then cost_per_contact / contact_rate
             else cost_per_contact }
  | .costPerMeeting =>
    let conversion_to_meeting := contact_rate * meeting_rate * show_up_rate
    { leads := if conversion_to_meeting > 0 then
                 meetings_target / conversion_to_meeting
               else meetings_target * 5
      cpl := if conversion_to_meeting > 0 then
               cost_per_meeting / conversion_to_meeting
             else cost_per_meeting }
  | .costPerSale =>
    let full_conversion := contact_rate * meeting_rate * show_up_rate * close_rate
    { leads := if full_conversion > 0 then sales_target / full_conversion
               else sales_target * 20
      cpl := if full_conversion > 0 then cost_per_sale / full_conversion
             else cost_per_sale }
  | .totalBudget =>
    { leads := leads_input
      cpl := if leads_input > 0 then total_budget / leads_input else 0 }

/-- The commission-flow view selector in `render_commission_flow`
(`dashboard_fast.py:1123`): the "Per Deal" radio choice versus the monthly
aggregate view. -/
inductive FlowView where
  | perDeal
  | monthly
deriving DecidableEq

/-- Per-person payout node of `render_commission_flow`
(`dashboard_fast.py:1119`-`1128`): drawn only when the role's headcount is
positive (`if count > 0`); the per-deal view pays the full role pool to the
one closer of the deal, the monthly view divides the pool evenly across the
role's headcount. -/
def perPersonPayout (view : FlowView) (pool : ℚ) (count : ℕ) : Option ℚ :=
  if count > 0 then
    some (match view with
          | .perDeal => pool
          | .monthly => pool / (count : ℚ))
  else none

/-- The default channel configuration seeded into session state
(`dashboard_fast.py:196`-`207`): note the dict has no `enabled` key. -/
def defaultChannel : Channel :=
  { enabled := none
    monthly_leads := some 1000
    cpl := some 50
    contact_rate := some (13/20)
    meeting_rate := some (2/5)
    show_up_rate := some (7/10)
    close_rate := some (3/10) }

/-! ## Theorems -/

/-- C2: for all `total_deal_value ≥ 0` and `upfront_pct ∈ [0,100]`, the cash
split calculator returns `upfront_cash = total_deal_value × upfront_pct/100`
and `deferred_cash = total_deal_value × (100 − upfront_pct)/100`, and
conservation holds exactly: `upfront_cash + deferred_cash =
total_deal_value` (exact arithmetic; the source's floats satisfy it within
tolerance). -/
theorem cash_split_conservation (total_deal_value upfront_pct : ℚ)
    (hdv : 0 ≤ total_deal_value) (hlo : 0 ≤ upfront_pct)
    (hhi : upfront_pct ≤ 100) :
    (calculate_deal_cash_splits total_deal_value upfront_pct).upfront_cash
        = total_deal_value * (upfront_pct / 100) ∧
    (calculate_deal_cash_splits total_deal_value upfront_pct).deferred_cash
        = total_deal_value * ((100 - upfront_pct) / 100) ∧
    (calculate_deal_cash_splits total_deal_value upfront_pct).upfront_cash
        + (calculate_deal_cash_splits total_deal_value upfront_pct).deferred_cash
        = total_deal_value := by
  refine ⟨rfl, rfl, ?_⟩
  simp only [calculate_deal_cash_splits]
  ring

/-- Witness for C2 at `total_deal_value = 50000`, `upfront_pct = 70`. -/
theorem cash_split_conservation_witness :
    (calculate_deal_cash_splits 50000 70).upfront_cash
        = 50000 * ((70 : ℚ) / 100) ∧
    (calculate_deal_cash_splits 50000 70).deferred_cash
        = 50000 * ((100 - (70 : ℚ)) / 100) ∧
    (calculate_deal_cash_splits 50000 70).upfront_cash
        + (calculate_deal_cash_splits 50000 70).deferred_cash = 50000 :=
  cash_split_conservation 50000 70 (by norm_num) (by norm_num) (by norm_num)

/-- C5 counterexample: at `deal_value = 100`, `upfront_pct = 150` the cash
split calculator does not fail — it returns the formula values, with an
out-of-domain negative `deferred_cash = −50`.  This refutes the claim that
out-of-range `upfront_pct` is rejected with `InvalidInputError`. -/
theorem cash_split_no_validation_counterexample :
    (calculate_deal_cash_splits 100 150).upfront_cash = 150 ∧
    (calculate_deal_cash_splits 100 150).deferred_cash = -50 ∧
    (calculate_deal_cash_splits 100 150).deferred_cash < 0 := by
  refine ⟨?_, ?_, ?_⟩ <;> simp [calculate_deal_cash_splits] <;> norm_num

/-- C5 amended: the cash split calculator performs no input validation — for
every input, in or out of domain, it returns the split formulas (and
conservation still holds); in particular `upfront_pct > 100` with a positive
deal value yields a negative `deferred_cash` instead of an error or a
clamped value. -/
theorem cash_split_no_validation (deal_value upfront_pct : ℚ) :
    (calculate_deal_cash_splits deal_value upfront_pct).upfront_cash
        = deal_value * (upfront_pct / 100) ∧
    (calculate_deal_cash_splits deal_value upfront_pct).deferred_cash
        = deal_value * ((100 - upfront_pct) / 100) ∧
    (calculate_deal_cash_splits deal_value upfront_pct).upfront_cash
        + (calculate_deal_cash_splits deal_value upfront_pct).deferred_cash
        = deal_value ∧
    (100 < upfront_pct → 0 < deal_value →
      (calculate_deal_cash_splits deal_value upfront_pct).deferred_cash < 0) := by
  refine ⟨rfl, rfl, ?_, ?_⟩
  · simp only [calculate_deal_cash_splits]; ring
  · intro hp hv
    simp only [calculate_deal_cash_splits]
    have h100 : 100 - upfront_pct < 0 := by linarith
    have : deal_value * ((100 - upfront_pct) / 100) < 0 := by
      apply mul_neg_of_pos_of_neg hv
      linarith
    exact this

/-- Witness for C5 amended at `deal_value = 100`, `upfront_pct = 150`. -/
theorem cash_split_no_validation_witness :
    (calculate_deal_cash_splits 100 150).deferred_cash < 0 :=
  (cash_split_no_validation 100 150).2.2.2 (by norm_num) (by norm_num)

/-- C7: for every role with positive headcount and commission pool `pool`,
the per-deal flow view pays the full pool undivided to the one person, while
the monthly view pays `pool / count` per person; at `count = 4` the monthly
amount is `pool / 4` while the per-deal amount is `pool`. -/
theorem per_person_payout_modes (pool : ℚ) (count : ℕ) (hc : 0 < count) :
    perPersonPayout FlowView.perDeal pool count = some pool ∧
    perPersonPayout FlowView.monthly pool count = some (pool / (count : ℚ)) := by
  constructor <;> simp [perPersonPayout, hc]

/-- Witness for C7 at `pool = 20000`, `count = 4`: the monthly per-person
amount is `20000 / 4 = 5000` and the per-deal amount is the full 20000. -/
theorem per_person_payout_modes_witness :
    perPersonPayout FlowView.perDeal 20000 4 = some 20000 ∧
    perPersonPayout FlowView.monthly 20000 4 = some 5000 := by
  have h := per_person_payout_modes 20000 4 (by norm_num)
  refine ⟨h.1, ?_⟩
  rw [h.2]
  norm_num

/-- C8: the unit economics calculator returns
`ltv = upfront_cash + deferred_cash × grr`; `ltv_cac = ltv / cost_per_sale`
with 0 substituted when `cost_per_sale ≤ 0`; and `payback_months =
cost_per_sale / (upfront_cash / 12)` with the sentinel 999 substituted when
`upfront_cash ≤ 0` — every result is a well-defined rational for all inputs
(no NaN/Infinity). -/
theorem unit_economics_formulas (deal_value upfront_pct grr cost_per_sale : ℚ) :
    (calculate_unit_economics deal_value upfront_pct grr cost_per_sale).ltv
        = (calculate_deal_cash_splits deal_value upfront_pct).upfront_cash
          + (calculate_deal_cash_splits deal_value upfront_pct).deferred_cash * grr ∧
    (calculate_unit_economics deal_value upfront_pct grr cost_per_sale).ltv_cac
        = (if 0 < cost_per_sale then
            (calculate_unit_economics deal_value upfront_pct grr cost_per_sale).ltv
              / cost_per_sale
           else 0) ∧
    (calculate_unit_economics deal_value upfront_pct grr cost_per_sale).payback_months
        = (if 0 < (calculate_deal_cash_splits deal_value upfront_pct).upfront_cash then
            cost_per_sale
              / ((calculate_deal_cash_splits deal_value upfront_pct).upfront_cash / 12)
           else 999) := by
  refine ⟨rfl, ?_, ?_⟩ <;> simp [calculate_unit_economics]

/-- C6 counterexample: with `cost_point = Cost per Sale`, conversion rates
`(0.6, 0.3, 0.7, 0)` (so the cumulative conversion product is 0) and
`cost_per_sale = 500`, the reconciliation returns an effective
`cpl = 500` — the unscaled downstream cost — not the 0 the claim
requires. -/
theorem cost_reconcile_zero_conversion_counterexample :
    (reconcileCostPoint CostPoint.costPerSale (6/10) (3/10) (7/10) 0
        0 0 10 0 0 0 500 0).cpl = 500 ∧
    ((500 : ℚ) ≠ 0) := by
  constructor
  · simp [reconcileCostPoint]
  · norm_num

/-- C6 amended: the reconciliation never divides by a non-positive
cumulative conversion product (so no crash and no NaN), but its fallback for
the per-sale cost point is the unscaled downstream cost itself (with
`leads = sales_target × 20`), not 0; likewise the per-meeting and
per-contact branches fall back to their unscaled costs; only the
total-budget branch defines the effective cpl as 0 (when `leads ≤ 0`). -/
theorem cost_reconcile_zero_conversion (contact_rate meeting_rate : ℚ)
    (show_up_rate close_rate contacts_target meetings_target : ℚ)
    (sales_target leads_input cost_per_contact : ℚ)
    (cost_per_meeting cost_per_sale total_budget : ℚ)
    (hsale : ¬ 0 < contact_rate * meeting_rate * show_up_rate * close_rate)
    (hmeet : ¬ 0 < contact_rate * meeting_rate * show_up_rate)
    (hcontact : ¬ 0 < contact_rate) (hleads : ¬ 0 < leads_input) :
    (reconcileCostPoint CostPoint.costPerSale contact_rate meeting_rate
        show_up_rate close_rate contacts_target meetings_target sales_target
        leads_input cost_per_contact cost_per_meeting cost_per_sale
        total_budget).cpl = cost_per_sale ∧
    (reconcileCostPoint CostPoint.costPerSale contact_rate meeting_rate
        show_up_rate close_rate contacts_target meetings_target sales_target
        leads_input cost_per_contact cost_per_meeting cost_per_sale
        total_budget).leads = sales_target * 20 ∧
    (reconcileCostPoint CostPoint.costPerMeeting contact_rate meeting_rate
        show_up_rate close_rate contacts_target meetings_target sales_target
        leads_input cost_per_contact cost_per_meeting cost_per_sale
        total_budget).cpl = cost_per_meeting ∧
    (reconcileCostPoint CostPoint.costPerContact contact_rate meeting_rate
        show_up_rate close_rate contacts_target meetings_target sales_target
        leads_input cost_per_contact cost_per_meeting cost_per_sale
        total_budget).cpl = cost_per_contact ∧
    (reconcileCostPoint CostPoint.totalBudget contact_rate meeting_rate
        show_up_rate close_rate contacts_target meetings_target sales_target
        leads_input cost_per_contact cost_per_meeting cost_per_sale
        total_budget).cpl = 0 := by
  refine ⟨?_, ?_, ?_, ?_, ?_⟩ <;>
    simp [reconcileCostPoint, hsale, hmeet, hcontact, hleads]

/-- Witness for C6 amended with all conversion rates 0 and costs
`(100, 300, 500)`, budget 2000, `sales_target = 10`. -/
theorem cost_reconcile_zero_conversion_witness :
    (reconcileCostPoint CostPoint.costPerSale 0 0 0 0
        0 0 10 0 100 300 500 2000).cpl = 500 ∧
    (reconcileCostPoint CostPoint.costPerSale 0 0 0 0
        0 0 10 0 100 300 500 2000).leads = 10 * 20 ∧
    (reconcileCostPoint CostPoint.costPerMeeting 0 0 0 0
        0 0 10 0 100 300 500 2000).cpl = 300 ∧
    (reconcileCostPoint CostPoint.costPerContact 0 0 0 0
        0 0 10 0 100 300 500 2000).cpl = 100 ∧
    (reconcileCostPoint CostPoint.totalBudget 0 0 0 0
        0 0 10 0 100 300 500 2000).cpl = 0 :=
  cost_reconcile_zero_conversion 0 0 0 0 0 0 10 0 100 300 500 2000
    (by norm_num) (by norm_num) (by norm_num) (by norm_num)

/-- C3 counterexample: with `commission_policy = FULL`, deal value 50000 and
`upfront_pct = 70`, the default channel's funnel revenue is
`sales × 35000 = 1,911,000`, not `sales × total_deal_value = 2,730,000` —
the engine's revenue does not follow the policy-selected commission base. -/
theorem channel_revenue_policy_counterexample :
    (channelFunnel ⟨50000, 70, CommissionPolicy.full⟩ defaultChannel).revenue
      ≠ (channelFunnel ⟨50000, 70, CommissionPolicy.full⟩ defaultChannel).sales
        * (DealEconomics.commission_base ⟨50000, 70, CommissionPolicy.full⟩) := by
  simp only [channelFunnel, defaultChannel, DealEconomics.commission_base,
    DealEconomics.upfront_cash, Channel.leadsD, Channel.cplD,
    Channel.contactRateD, Channel.meetingRateD, Channel.showUpRateD,
    Channel.closeRateD, Option.getD_some]
  norm_num

/-- C3 amended: the per-channel revenue computed by the funnel engine is
always `sales × upfront_cash` (the cash-collected, "immediate" basis),
independent of `commission_policy` — the policy changes the commission base
elsewhere, not the funnel's revenue. -/
theorem channel_revenue_upfront_based (deal_econ : DealEconomics) (ch : Channel) :
    (channelFunnel deal_econ ch).revenue
        = (channelFunnel deal_econ ch).sales * deal_econ.upfront_cash ∧
    (∀ p : CommissionPolicy,
      (channelFunnel { deal_econ with commission_policy := p } ch).revenue
        = (channelFunnel deal_econ ch).revenue) := by
  refine ⟨rfl, fun p => ?_⟩
  simp [channelFunnel, DealEconomics.upfront_cash]

/-- C10: the aggregator is total over partial channel records — a channel
dict lacking the `enabled` key passes the `ch.get('enabled', True)` filter
and is included (only an explicit `enabled = False` excludes a channel), and
a channel lacking every data key is computed exactly as one whose keys hold
the documented defaults (`monthly_leads` 0, `cpl` 50, `contact_rate` 0.6,
`meeting_rate` 0.3, `show_up_rate` 0.7, `close_rate` 0.25); the embedded
aggregation is a total function, so no partial config can make it error. -/
theorem partial_channel_defaults (deal_econ : DealEconomics) (ch : Channel)
    (l : List Channel) :
    (ch.enabled = none → enabledChannels (ch :: l) = ch :: enabledChannels l) ∧
    (ch.enabled = some false → enabledChannels (ch :: l) = enabledChannels l) ∧
    channelFunnel deal_econ ⟨none, none, none, none, none, none, none⟩
      = channelFunnel deal_econ
          ⟨some true, some 0, some 50, some (6/10), some (3/10), some (7/10),
           some (1/4)⟩ := by
  refine ⟨fun h => ?_, fun h => ?_, ?_⟩
  · simp [enabledChannels, h]
  · simp [enabledChannels, h]
  · simp [channelFunnel, Channel.leadsD, Channel.cplD, Channel.contactRateD,
      Channel.meetingRateD, Channel.showUpRateD, Channel.closeRateD]

/-- Witness for C10: the session default channel (no `enabled` key) is kept
by the filter, a copy with `enabled = some false` is dropped, and the
all-missing channel computes with the documented defaults. -/
theorem partial_channel_defaults_witness :
    enabledChannels [defaultChannel] = [defaultChannel] ∧
    enabledChannels [{ defaultChannel with enabled := some false }] = [] ∧
    channelFunnel ⟨50000, 70, CommissionPolicy.upfront⟩
        ⟨none, none, none, none, none, none, none⟩
      = channelFunnel ⟨50000, 70, CommissionPolicy.upfront⟩
          ⟨some true, some 0, some 50, some (6/10), some (3/10), some (7/10),
           some (1/4)⟩ := by
  have h1 := partial_channel_defaults ⟨50000, 70, CommissionPolicy.upfront⟩
    defaultChannel []
  have h2 := partial_channel_defaults ⟨50000, 70, CommissionPolicy.upfront⟩
    { defaultChannel with enabled := some false } []
  exact ⟨h1.1 rfl, h2.2.1 rfl, h1.2.2⟩

/-- C9 (cache-key completeness): refuted on the code.  The cached GTM
computation's only cache key is the channels JSON, yet its output depends on
the ambient deal economics read inside the body
(`dashboard_fast.py:272`-`273`): with the identical default channel list,
upfront 70% of a 50000 deal yields monthly revenue 1,911,000 while upfront
50% yields 1,365,000 — so the key does not include every input that affects
the output. -/
theorem gtm_cache_key_incomplete :
    (calculate_gtm_metrics ⟨50000, 70, CommissionPolicy.upfront⟩
        [defaultChannel]).monthly_revenue_immediate = 1911000 ∧
    (calculate_gtm_metrics ⟨50000, 50, CommissionPolicy.upfront⟩
        [defaultChannel]).monthly_revenue_immediate = 1365000 ∧
    (calculate_gtm_metrics ⟨50000, 70, CommissionPolicy.upfront⟩
        [defaultChannel]).monthly_revenue_immediate
      ≠ (calculate_gtm_metrics ⟨50000, 50, CommissionPolicy.upfront⟩
          [defaultChannel]).monthly_revenue_immediate := by
  refine ⟨?_, ?_, ?_⟩ <;>
    norm_num [calculate_gtm_metrics, enabledChannels, channelFunnel,
      defaultChannel, DealEconomics.upfront_cash, Channel.leadsD, Channel.cplD,
      Channel.contactRateD, Channel.meetingRateD, Channel.showUpRateD,
      Channel.closeRateD]

/-! ### Field characterizations of the aggregator

Shared lemmas expressing each output of `calculate_gtm_metrics` as a
summation over the enabled channels' funnels (the early empty-list return
coincides with the empty summation). -/

lemma gtm_monthly_leads (deal_econ : DealEconomics) (channels : List Channel) :
    (calculate_gtm_metrics deal_econ channels).monthly_leads
      = (((enabledChannels channels).map (channelFunnel deal_econ)).map
          ChannelFunnel.leads).sum := by
  by_cases h : channels.isEmpty
  · rw [List.isEmpty_iff.mp h]; simp [calculate_gtm_metrics, enabledChannels]
  · simp [calculate_gtm_metrics, h]

lemma gtm_monthly_contacts (deal_econ : DealEconomics) (channels : List Channel) :
    (calculate_gtm_metrics deal_econ channels).monthly_contacts
      = (((enabledChannels channels).map (channelFunnel deal_econ)).map
          ChannelFunnel.contacts).sum := by
  by_cases h : channels.isEmpty
  · rw [List.isEmpty_iff.mp h]; simp [calculate_gtm_metrics, enabledChannels]
  · simp [calculate_gtm_metrics, h]

lemma gtm_monthly_meetings_scheduled (deal_econ : DealEconomics)
    (channels : List Channel) :
    (calculate_gtm_metrics deal_econ channels).monthly_meetings_scheduled
      = (((enabledChannels channels).map (channelFunnel deal_econ)).map
          ChannelFunnel.meetings_sched).sum := by
  by_cases h : channels.isEmpty
  · rw [List.isEmpty_iff.mp h]; simp [calculate_gtm_metrics, enabledChannels]
  · simp [calculate_gtm_metrics, h]

lemma gtm_monthly_meetings_held (deal_econ : DealEconomics)
    (channels : List Channel) :
    (calculate_gtm_metrics deal_econ channels).monthly_meetings_held
      = (((enabledChannels channels).map (channelFunnel deal_econ)).map
          ChannelFunnel.meetings_held).sum := by
  by_cases h : channels.isEmpty
  · rw [List.isEmpty_iff.mp h]; simp [calculate_gtm_metrics, enabledChannels]
  · simp [calculate_gtm_metrics, h]

lemma gtm_monthly_sales (deal_econ : DealEconomics) (channels : List Channel) :
    (calculate_gtm_metrics deal_econ channels).monthly_sales
      = (((enabledChannels channels).map (channelFunnel deal_econ)).map
          ChannelFunnel.sales).sum := by
  by_cases h : channels.isEmpty
  · rw [List.isEmpty_iff.mp h]; simp [calculate_gtm_metrics, enabledChannels]
  · simp [calculate_gtm_metrics, h]

lemma gtm_monthly_revenue (deal_econ : DealEconomics) (channels : List Channel) :
    (calculate_gtm_metrics deal_econ channels).monthly_revenue_immediate
      = (((enabledChannels channels).map (channelFunnel deal_econ)).map
          ChannelFunnel.revenue).sum := by
  by_cases h : channels.isEmpty
  · rw [List.isEmpty_iff.mp h]; simp [calculate_gtm_metrics, enabledChannels]
  · simp [calculate_gtm_metrics, h]

lemma gtm_total_spend (deal_econ : DealEconomics) (channels : List Channel) :
    (calculate_gtm_metrics deal_econ channels).total_marketing_spend
      = (((enabledChannels channels).map (channelFunnel deal_econ)).map
          ChannelFunnel.spend).sum := by
  by_cases h : channels.isEmpty
  · rw [List.isEmpty_iff.mp h]; simp [calculate_gtm_metrics, enabledChannels]
  · simp [calculate_gtm_metrics, h]

lemma gtm_cost_per_sale_eq (deal_econ : DealEconomics) (channels : List Channel) :
    (calculate_gtm_metrics deal_econ channels).cost_per_sale
      = (if 0 < (calculate_gtm_metrics deal_econ channels).monthly_sales then
          (calculate_gtm_metrics deal_econ channels).total_marketing_spend
            / (calculate_gtm_metrics deal_econ channels).monthly_sales
         else 0) := by
  by_cases h : channels.isEmpty
  · rw [List.isEmpty_iff.mp h]; simp [calculate_gtm_metrics, enabledChannels]
  · simp [calculate_gtm_metrics, h]

lemma gtm_blended_close_rate_eq (deal_econ : DealEconomics)
    (channels : List Channel) :
    (calculate_gtm_metrics deal_econ channels).blended_close_rate
      = (if 0 < (calculate_gtm_metrics deal_econ channels).monthly_meetings_held then
          (calculate_gtm_metrics deal_econ channels).monthly_sales
            / (calculate_gtm_metrics deal_econ channels).monthly_meetings_held
         else 0) := by
  by_cases h : channels.isEmpty
  · rw [List.isEmpty_iff.mp h]; simp [calculate_gtm_metrics, enabledChannels]
  · simp [calculate_gtm_metrics, h]

/-- C4: for every permutation of the channel list, the aggregator produces
identical totals (leads, contacts, meetings scheduled, meetings held,
sales, revenue, spend) and identical blended rates (cost per sale and
blended close rate) — aggregation is order-independent pure summation. -/
theorem gtm_order_independence (deal_econ : DealEconomics)
    (l l' : List Channel) (hp : l.Perm l') :
    (calculate_gtm_metrics deal_econ l).monthly_leads
      = (calculate_gtm_metrics deal_econ l').monthly_leads ∧
    (calculate_gtm_metrics deal_econ l).monthly_contacts
      = (calculate_gtm_metrics deal_econ l').monthly_contacts ∧
    (calculate_gtm_metrics deal_econ l).monthly_meetings_scheduled
      = (calculate_gtm_metrics deal_econ l').monthly_meetings_scheduled ∧
    (calculate_gtm_metrics deal_econ l).monthly_meetings_held
      = (calculate_gtm_metrics deal_econ l').monthly_meetings_held ∧
    (calculate_gtm_metrics deal_econ l).monthly_sales
      = (calculate_gtm_metrics deal_econ l').monthly_sales ∧
    (calculate_gtm_metrics deal_econ l).monthly_revenue_immediate
      = (calculate_gtm_metrics deal_econ l').monthly_revenue_immediate ∧
    (calculate_gtm_metrics deal_econ l).total_marketing_spend
      = (calculate_gtm_metrics deal_econ l').total_marketing_spend ∧
    (calculate_gtm_metrics deal_econ l).cost_per_sale
      = (calculate_gtm_metrics deal_econ l').cost_per_sale ∧
    (calculate_gtm_metrics deal_econ l).blended_close_rate
      = (calculate_gtm_metrics deal_econ l').blended_close_rate := by
  have hperm : ((enabledChannels l).map (channelFunnel deal_econ)).Perm
      ((enabledChannels l').map (channelFunnel deal_econ)) :=
    (hp.filter _).map _
  have hsum : ∀ f : ChannelFunnel → ℚ,
      (((enabledChannels l).map (channelFunnel deal_econ)).map f).sum
        = (((enabledChannels l').map (channelFunnel deal_econ)).map f).sum :=
    fun f => (hperm.map f).sum_eq
  have hsales : (calculate_gtm_metrics deal_econ l).monthly_sales
      = (calculate_gtm_metrics deal_econ l').monthly_sales := by
    rw [gtm_monthly_sales, gtm_monthly_sales, hsum]
  have hheld : (calculate_gtm_metrics deal_econ l).monthly_meetings_held
      = (calculate_gtm_metrics deal_econ l').monthly_meetings_held := by
    rw [gtm_monthly_meetings_held, gtm_monthly_meetings_held, hsum]
  have hspend : (calculate_gtm_metrics deal_econ l).total_marketing_spend
      = (calculate_gtm_metrics deal_econ l').total_marketing_spend := by
    rw [gtm_total_spend, gtm_total_spend, hsum]
  refine ⟨?_, ?_, ?_, hheld, hsales, ?_, hspend, ?_, ?_⟩
  · rw [gtm_monthly_leads, gtm_monthly_leads, hsum]
  · rw [gtm_monthly_contacts, gtm_monthly_contacts, hsum]
  · rw [gtm_monthly_meetings_scheduled, gtm_monthly_meetings_scheduled, hsum]
  · rw [gtm_monthly_revenue, gtm_monthly_revenue, hsum]
  · rw [gtm_cost_per_sale_eq, gtm_cost_per_sale_eq, hsales, hspend]
  · rw [gtm_blended_close_rate_eq, gtm_blended_close_rate_eq, hsales, hheld]

/-- Witness for C4: three channels of differing volumes aggregated in
rotated order give the same sales total, revenue total and blended close
rate. -/
theorem gtm_order_independence_witness :
    (calculate_gtm_metrics ⟨50000, 70, CommissionPolicy.upfront⟩
        [defaultChannel,
         { defaultChannel with monthly_leads := some 200 },
         { defaultChannel with monthly_leads := some 4000,
                               close_rate := some (1/10) }]).monthly_sales
      = (calculate_gtm_metrics ⟨50000, 70, CommissionPolicy.upfront⟩
          [{ defaultChannel with monthly_leads := some 4000,
                                 close_rate := some (1/10) },
           { defaultChannel with monthly_leads := some 200 },
           defaultChannel]).monthly_sales ∧
    (calculate_gtm_metrics ⟨50000, 70, CommissionPolicy.upfront⟩
        [defaultChannel,
         { defaultChannel with monthly_leads := some 200 },
         { defaultChannel with monthly_leads := some 4000,
                               close_rate := some (1/10) }]).monthly_revenue_immediate
      = (calculate_gtm_metrics ⟨50000, 70, CommissionPolicy.upfront⟩
          [{ defaultChannel with monthly_leads := some 4000,
                                 close_rate := some (1/10) },
           { defaultChannel with monthly_leads := some 200 },
           defaultChannel]).monthly_revenue_immediate ∧
    (calculate_gtm_metrics ⟨50000, 70, CommissionPolicy.upfront⟩
        [defaultChannel,
         { defaultChannel with monthly_leads := some 200 },
         { defaultChannel with monthly_leads := some 4000,
                               close_rate := some (1/10) }]).blended_close_rate
      = (calculate_gtm_metrics ⟨50000, 70, CommissionPolicy.upfront⟩
          [{ defaultChannel with monthly_leads := some 4000,
                                 close_rate := some (1/10) },
           { defaultChannel with monthly_leads := some 200 },
           defaultChannel]).blended_close_rate := by
  have hp : List.Perm
      [defaultChannel,
       { defaultChannel with monthly_leads := some 200 },
       { defaultChannel with monthly_leads := some 4000,
                             close_rate := some (1/10) }]
      [{ defaultChannel with monthly_leads := some 4000,
                             close_rate := some (1/10) },
       { defaultChannel with monthly_leads := some 200 },
       defaultChannel] := by
    have h := List.reverse_perm
      [defaultChannel,
       { defaultChannel with monthly_leads := some 200 },
       { defaultChannel with monthly_leads := some 4000,
                             close_rate := some (1/10) }]
    simpa using h.symm
  have h := gtm_order_independence ⟨50000, 70, CommissionPolicy.upfront⟩ _ _ hp
  exact ⟨h.2.2.2.2.1, h.2.2.2.2.2.1, h.2.2.2.2.2.2.2.2⟩

/-- C1 counterexample: two enabled channels whose volumes differ at every
stage (100 vs 400 leads, meetings held 25 vs 100) but which share the close
rate 1/4: the blended close rate equals the arithmetic mean of the
per-channel close rates, refuting "it is not the arithmetic mean of the
per-channel close rates whenever channel volumes differ". -/
theorem blended_close_rate_mean_counterexample :
    (channelFunnel ⟨50000, 70, CommissionPolicy.upfront⟩
        ⟨some true, some 100, some 50, some (1/2), some (1/2), some 1,
         some (1/4)⟩).meetings_held = 25 ∧
    (channelFunnel ⟨50000, 70, CommissionPolicy.upfront⟩
        ⟨some true, some 400, some 50, some (1/2), some (1/2), some 1,
         some (1/4)⟩).meetings_held = 100 ∧
    0 < (calculate_gtm_metrics ⟨50000, 70, CommissionPolicy.upfront⟩
        [⟨some true, some 100, some 50, some (1/2), some (1/2), some 1,
          some (1/4)⟩,
         ⟨some true, some 400, some 50, some (1/2), some (1/2), some 1,
          some (1/4)⟩]).monthly_meetings_held ∧
    (calculate_gtm_metrics ⟨50000, 70, CommissionPolicy.upfront⟩
        [⟨some true, some 100, some 50, some (1/2), some (1/2), some 1,
          some (1/4)⟩,
         ⟨some true, some 400, some 50, some (1/2), some (1/2), some 1,
          some (1/4)⟩]).blended_close_rate
      = ((Channel.closeRateD ⟨some true, some 100, some 50, some (1/2),
            some (1/2), some 1, some (1/4)⟩)
         + (Channel.closeRateD ⟨some true, some 400, some 50, some (1/2),
            some (1/2), some 1, some (1/4)⟩)) / 2 := by
  refine ⟨?_, ?_, ?_, ?_⟩ <;>
    norm_num [calculate_gtm_metrics, enabledChannels, channelFunnel,
      Channel.leadsD, Channel.cplD, Channel.contactRateD, Channel.meetingRateD,
      Channel.showUpRateD, Channel.closeRateD]

/-- C1 amended: the aggregator's blended close rate is the ratio of summed
volumes — `total_sales / total_meetings_held` when the total is positive and
0 when it is 0 — and it differs from the arithmetic mean of the per-channel
close rates whenever channel volumes differ AND the per-channel close rates
differ (two enabled channels with positive, unequal meetings-held volumes
and unequal close rates). -/
theorem blended_close_rate_volume_weighted (deal_econ : DealEconomics) :
    (∀ channels : List Channel,
      0 < (calculate_gtm_metrics deal_econ channels).monthly_meetings_held →
      (calculate_gtm_metrics deal_econ channels).blended_close_rate
        = (calculate_gtm_metrics deal_econ channels).monthly_sales
          / (calculate_gtm_metrics deal_econ channels).monthly_meetings_held) ∧
    (∀ channels : List Channel,
      (calculate_gtm_metrics deal_econ channels).monthly_meetings_held = 0 →
      (calculate_gtm_metrics deal_econ channels).blended_close_rate = 0) ∧
    (∀ c1 c2 : Channel,
      c1.enabled.getD true = true → c2.enabled.getD true = true →
      0 < (channelFunnel deal_econ c1).meetings_held →
      0 < (channelFunnel deal_econ c2).meetings_held →
      (channelFunnel deal_econ c1).meetings_held
        ≠ (channelFunnel deal_econ c2).meetings_held →
      c1.closeRateD ≠ c2.closeRateD →
      (calculate_gtm_metrics deal_econ [c1, c2]).blended_close_rate
        ≠ (c1.closeRateD + c2.closeRateD) / 2) := by
  have hsale_eq : ∀ c : Channel, (channelFunnel deal_econ c).sales
      = (channelFunnel deal_econ c).meetings_held * c.closeRateD := fun _ => rfl
  refine ⟨fun channels hpos => ?_, fun channels hz => ?_, ?_⟩
  · rw [gtm_blended_close_rate_eq, if_pos hpos]
  · rw [gtm_blended_close_rate_eq, hz]
    norm_num
  · intro c1 c2 he1 he2 hm1 hm2 hmne hrne
    have hen : enabledChannels [c1, c2] = [c1, c2] := by
      simp [enabledChannels, he1, he2]
    have hmh : (calculate_gtm_metrics deal_econ [c1, c2]).monthly_meetings_held
        = (channelFunnel deal_econ c1).meetings_held
          + (channelFunnel deal_econ c2).meetings_held := by
      rw [gtm_monthly_meetings_held, hen]; simp
    have hms : (calculate_gtm_metrics deal_econ [c1, c2]).monthly_sales
        = (channelFunnel deal_econ c1).meetings_held * c1.closeRateD
          + (channelFunnel deal_econ c2).meetings_held * c2.closeRateD := by
      rw [gtm_monthly_sales, hen]
      simp [hsale_eq]
    have hpos : 0 < (channelFunnel deal_econ c1).meetings_held
        + (channelFunnel deal_econ c2).meetings_held := by linarith
    have hblend : (calculate_gtm_metrics deal_econ [c1, c2]).blended_close_rate
        = ((channelFunnel deal_econ c1).meetings_held * c1.closeRateD
            + (channelFunnel deal_econ c2).meetings_held * c2.closeRateD)
          / ((channelFunnel deal_econ c1).meetings_held
              + (channelFunnel deal_econ c2).meetings_held) := by
      rw [gtm_blended_close_rate_eq, hmh, hms, if_pos hpos]
    rw [hblend]
    intro heq
    have hne : (channelFunnel deal_econ c1).meetings_held
        + (channelFunnel deal_econ c2).meetings_held ≠ 0 := ne_of_gt hpos
    have hcross : ((channelFunnel deal_econ c1).meetings_held * c1.closeRateD
          + (channelFunnel deal_econ c2).meetings_held * c2.closeRateD) * 2
        = (c1.closeRateD + c2.closeRateD)
          * ((channelFunnel deal_econ c1).meetings_held
              + (channelFunnel deal_econ c2).meetings_held) :=
      (div_eq_div_iff hne two_ne_zero).mp heq
    have key : ((channelFunnel deal_econ c1).meetings_held
          - (channelFunnel deal_econ c2).meetings_held)
        * (c1.closeRateD - c2.closeRateD) = 0 := by linear_combination hcross
    rcases mul_eq_zero.mp key with h | h
    · exact hmne (sub_eq_zero.mp h)
    · exact hrne (sub_eq_zero.mp h)

/-- Witness for C1 amended: channels with meetings held 25 vs 100 and close
rates 1/4 vs 1/2 — the blended close rate is 9/20, not the arithmetic mean
3/8; and the positive/zero branches evaluated on the same channel pair and
the empty list. -/
theorem blended_close_rate_volume_weighted_witness :
    (calculate_gtm_metrics ⟨50000, 70, CommissionPolicy.upfront⟩
        [⟨some true, some 100, some 50, some (1/2), some (1/2), some 1,
          some (1/4)⟩,
         ⟨some true, some 400, some 50, some (1/2), some (1/2), some 1,
          some (1/2)⟩]).blended_close_rate
      = (calculate_gtm_metrics ⟨50000, 70, CommissionPolicy.upfront⟩
          [⟨some true, some 100, some 50, some (1/2), some (1/2), some 1,
            some (1/4)⟩,
           ⟨some true, some 400, some 50, some (1/2), some (1/2), some 1,
            some (1/2)⟩]).monthly_sales
        / (calculate_gtm_metrics ⟨50000, 70, CommissionPolicy.upfront⟩
            [⟨some true, some 100, some 50, some (1/2), some (1/2), some 1,
              some (1/4)⟩,
             ⟨some true, some 400, some 50, some (1/2), some (1/2), some 1,
              some (1/2)⟩]).monthly_meetings_held ∧
    (calculate_gtm_metrics ⟨50000, 70, CommissionPolicy.upfront⟩
        ([] : List Channel)).blended_close_rate = 0 ∧
    (calculate_gtm_metrics ⟨50000, 70, CommissionPolicy.upfront⟩
        [⟨some true, some 100, some 50, some (1/2), some (1/2), some 1,
          some (1/4)⟩,
         ⟨some true, some 400, some 50, some (1/2), some (1/2), some 1,
          some (1/2)⟩]).blended_close_rate
      ≠ ((Channel.closeRateD ⟨some true, some 100, some 50, some (1/2),
            some (1/2), some 1, some (1/4)⟩)
         + (Channel.closeRateD ⟨some true, some 400, some 50, some (1/2),
            some (1/2), some 1, some (1/2)⟩)) / 2 := by
  obtain ⟨h1, h2, h3⟩ :=
    blended_close_rate_volume_weighted ⟨50000, 70, CommissionPolicy.upfront⟩
  refine ⟨h1 _ ?_, h2 _ ?_, h3 _ _ rfl rfl ?_ ?_ ?_ ?_⟩ <;>
    norm_num [calculate_gtm_metrics, enabledChannels, channelFunnel,
      Channel.leadsD, Channel.cplD, Channel.contactRateD, Channel.meetingRateD,
      Channel.showUpRateD, Channel.closeRateD]

end SalesComp
